import Mathlib

/-!
Shallow embedding of the warships game core (game.py): the 2D vector math
module, the aircraft behaviour state machine and the ship controller.
External framework calls (model creation, destruction, placement) are
modelled by a Boolean presence bit for each visible handle; all numeric
state is over the reals.  Python None sentinels on optional fields become
Option; None sentinels on kinematic fields of a never-launched aircraft are
never read by any operation before init runs, and are embedded as zeros.
-/

namespace Warships

open Classical

noncomputable section

-- ------------------------------------------------------
--    Game parameters (class Params)
-- ------------------------------------------------------

namespace Params

def EPSILON : ℝ := 0.1
def DEGREES_EPS : ℝ := 0.3
def WIN_WIDTH : ℝ := 8.0
def WIN_HEIGHT : ℝ := 6.0

namespace Ship
def LINEAR_SPEED : ℝ := 0.5
def ANGULAR_SPEED : ℝ := 0.5
def AIRCRAFT_COUNT : ℕ := 5
def WIDTH : ℝ := 0.6
end Ship

namespace Aircraft
def ANGULAR_SPEED : ℝ := 2.5
def CORRECT_ANGLE : ℝ := 1.57
def FLIGHT_TIME : ℝ := 45.0
def LINEAR_SPEED : ℝ := 2.0
def LINEAR_SPEED_MIN : ℝ := 0.1
def LINEAR_ACCELERATION : ℝ := 1
def RELOAD_TIME : ℝ := 3.0
end Aircraft

end Params

-- ------------------------------------------------------
--    Basic Vector2 class
-- ------------------------------------------------------

@[ext]
structure Vector2 where
  x : ℝ
  y : ℝ

namespace Vector2

instance : Add Vector2 := ⟨fun a b => ⟨a.x + b.x, a.y + b.y⟩⟩

instance : Sub Vector2 := ⟨fun a b => ⟨a.x - b.x, a.y - b.y⟩⟩

instance : Neg Vector2 := ⟨fun a => ⟨-a.x, -a.y⟩⟩

/-- Python __mul__ with a scalar argument. -/
def smul (v : Vector2) (coef : ℝ) : Vector2 := ⟨v.x * coef, v.y * coef⟩

/-- Python __mul__ with a Vector2 argument: the dot product. -/
def dot (v other : Vector2) : ℝ := v.x * other.x + v.y * other.y

/-- Python __abs__: the Euclidean magnitude. -/
def vabs (v : Vector2) : ℝ := Real.sqrt (v.x * v.x + v.y * v.y)

/-- Python is_null: both components strictly inside (-EPSILON, EPSILON). -/
def is_null (v : Vector2) : Prop :=
  v.x < Params.EPSILON ∧ v.x > -Params.EPSILON ∧
  v.y < Params.EPSILON ∧ v.y > -Params.EPSILON

/-- The inline clamp in angle_between: 1 if value > 1 else -1 if value < -1 else value. -/
def clampUnit (value : ℝ) : ℝ :=
  if value > 1 then 1 else if value < -1 then -1 else value

/-- Python angle_between: acos of the clamped normalised dot product. -/
def angle_between (v other : Vector2) : ℝ :=
  Real.arccos (clampUnit (dot v other / (vabs v * vabs other)))

end Vector2

-- ------------------------------------------------------
--    Aircraft state and behaviour
-- ------------------------------------------------------

structure InputState where
  forward : Bool
  backward : Bool
  left : Bool
  right : Bool

def noKeys : InputState := ⟨false, false, false, false⟩

/-- Python Aircraft instance state.  model is the presence bit of the
visible handle (None becomes false). -/
structure AircraftState where
  a : Vector2
  angle : ℝ
  flight_time : ℝ
  input : InputState
  model : Bool
  need_correct_angle : Option Bool
  position : Vector2
  reload_time : Option ℝ
  rotation_radius : ℝ
  start_pos : Vector2
  target : Option Vector2
  v : Vector2
  v_abs : ℝ

/-- Aircraft.__init__: a freshly constructed, never-launched aircraft.
Python stores None in the kinematic fields; they are never read while the
handle is absent, and are embedded as zeros. -/
def freshAircraft : AircraftState :=
  { a := ⟨0, 0⟩, angle := 0, flight_time := 0, input := noKeys, model := false,
    need_correct_angle := none, position := ⟨0, 0⟩, reload_time := none,
    rotation_radius := 0, start_pos := ⟨0, 0⟩, target := none,
    v := ⟨0, 0⟩, v_abs := 0 }

namespace Aircraft

/-- Aircraft.init: launch from the ship pose.  Python writes
self._angle = angle or 0.0, which is the identity on real angles. -/
def init (s : AircraftState) (position : Vector2) (angle : ℝ) : AircraftState :=
  let a : Vector2 := ⟨Params.Aircraft.LINEAR_ACCELERATION * Real.cos angle,
                      Params.Aircraft.LINEAR_ACCELERATION * Real.sin angle⟩
  let v : Vector2 := ⟨Params.Aircraft.LINEAR_SPEED_MIN * Real.cos angle,
                      Params.Aircraft.LINEAR_SPEED_MIN * Real.sin angle⟩
  { s with
    a := a, angle := angle, flight_time := 0, input := noKeys, model := true,
    need_correct_angle := none, position := position, start_pos := position,
    target := none, reload_time := none, v := v, v_abs := v.vabs,
    rotation_radius := v.vabs / Params.Aircraft.ANGULAR_SPEED }

/-- Aircraft.deinit: release the handle; reload timer becomes None on a
full restart and 0 on a mid-simulation dock.  No-op when already docked. -/
def deinit (s : AircraftState) (is_restart : Bool) : AircraftState :=
  if s.model = false then s
  else { s with reload_time := if is_restart then none else some 0,
                model := false }

/-- Aircraft.__flight_around: advance heading by ANGULAR_SPEED * dt and
reorient velocity and acceleration to the new heading. -/
def flight_around (s : AircraftState) (dt : ℝ) : AircraftState :=
  let angle := s.angle + Params.Aircraft.ANGULAR_SPEED * dt
  let rotate_vec : Vector2 := ⟨Real.cos angle, Real.sin angle⟩
  { s with angle := angle,
           v := rotate_vec.smul s.v_abs,
           a := rotate_vec.smul s.a.vabs }

/-- Aircraft.__flight_to_target: dock when arriving with is_deinit set,
otherwise turn at the fixed rate when off-course by more than DEGREES_EPS. -/
def flight_to_target (s : AircraftState) (target : Vector2) (dt : ℝ)
    (is_deinit : Bool) : AircraftState :=
  let target_vec := target - s.position
  if is_deinit = true ∧ target_vec.is_null then deinit s false
  else if Vector2.angle_between target_vec s.v > Params.DEGREES_EPS then
    flight_around s dt
  else s

/-- The one-time course correction block inside __flight_around_target:
offset the target point by a vector perpendicular to target_vec of
magnitude rotation_radius, then disarm the correction.  The guard of the
block (armed flag and target_vec.x nonzero) is part of the definition. -/
def correct_course (s : AircraftState) (t target_vec : Vector2) : AircraftState :=
  if s.need_correct_angle = some true ∧ target_vec.x ≠ 0 then
    let koef := target_vec.y / target_vec.x
    let ay := s.rotation_radius / Real.sqrt (1 + koef ^ 2)
    let ax := ay * koef
    if target_vec.x > 0 then
      { s with target := some ⟨t.x + ax, t.y - ay⟩, need_correct_angle := some false }
    else if target_vec.x < 0 then
      { s with target := some ⟨t.x - ax, t.y + ay⟩, need_correct_angle := some false }
    else { s with need_correct_angle := some false }
  else s

/-- Aircraft.__flight_around_target.  Only called with a target present;
on none the state is returned unchanged.  Python recomputes the flight
direction from the (possibly corrected) stored target. -/
def flight_around_target (s : AircraftState) (dt : ℝ) : AircraftState :=
  match s.target with
  | none => s
  | some t =>
    let target_vec := t - s.position
    let s1 := if target_vec.vabs ≤ s.rotation_radius then
                correct_course s t target_vec
              else s
    if target_vec.is_null then flight_around s1 dt
    else flight_to_target s1 (s1.target.getD t) dt false

/-- The docked branch of Aircraft.update: accumulate the reload timer
when it is tracked. -/
def dockedTick (s : AircraftState) (dt : ℝ) : AircraftState :=
  { s with reload_time := s.reload_time.map (fun t => t + dt) }

/-- The out-of-bounds test at the top of the airborne branch of
Aircraft.update. -/
def outOfBounds (p : Vector2) : Prop :=
  p.y > Params.WIN_HEIGHT ∨ p.y < -Params.WIN_HEIGHT ∨
  p.x > Params.WIN_WIDTH ∨ p.x < -Params.WIN_WIDTH

/-- Out-of-bounds correction step: steer toward the mirror point. -/
def oobStep (s : AircraftState) (dt : ℝ) : AircraftState :=
  if outOfBounds s.position then
    flight_to_target s (s.position.smul (-1)) dt false
  else s

/-- The accelerating branch of Aircraft.update (v_abs below LINEAR_SPEED):
snap to the ship heading inside the launch zone, orbit an existing target
otherwise, then integrate the acceleration and refresh the cached speed
and rotation radius. -/
def speedUp (s : AircraftState) (dt : ℝ) (ship_angle : ℝ) : AircraftState :=
  let s1 :=
    if (s.position - s.start_pos).vabs < Params.Ship.WIDTH then
      { s with
        a := (Vector2.mk (Real.cos ship_angle) (Real.sin ship_angle)).smul s.a.vabs,
        v := (Vector2.mk (Real.cos ship_angle) (Real.sin ship_angle)).smul s.v_abs,
        angle := ship_angle }
    else if s.target.isSome then flight_around_target s dt
    else s
  let v := s1.v + s1.a.smul dt
  { s1 with v := v, v_abs := v.vabs,
            rotation_radius := v.vabs / Params.Aircraft.ANGULAR_SPEED }

/-- The phase dispatch of Aircraft.update: accelerate, cruise (accumulate
flight time and orbit any target), or return to the ship. -/
def phaseStep (s : AircraftState) (dt : ℝ) (ship_pos : Vector2)
    (ship_angle : ℝ) : AircraftState :=
  if s.v_abs < Params.Aircraft.LINEAR_SPEED then speedUp s dt ship_angle
  else if s.flight_time < Params.Aircraft.FLIGHT_TIME then
    let s1 := { s with flight_time := s.flight_time + dt }
    if s1.target.isSome then flight_around_target s1 dt else s1
  else flight_to_target s ship_pos dt true

/-- Position integration at the end of Aircraft.update, skipped when the
aircraft docked during this tick. -/
def integrateStep (s : AircraftState) (dt : ℝ) : AircraftState :=
  if s.model = false then s
  else { s with position := s.position + s.v.smul dt }

/-- Aircraft.update. -/
def update (s : AircraftState) (dt : ℝ) (ship_pos : Vector2)
    (ship_angle : ℝ) : AircraftState :=
  if s.model = false then dockedTick s dt
  else integrateStep (phaseStep (oobStep s dt) dt ship_pos ship_angle) dt

/-- Aircraft.is_hidden: the visible handle is absent. -/
def is_hidden (s : AircraftState) : Prop := s.model = false

/-- Aircraft.set_target: a silent no-op on a docked aircraft, otherwise
store the target and arm the course correction. -/
def set_target (s : AircraftState) (x y : ℝ) : AircraftState :=
  if is_hidden s then s
  else { s with target := some ⟨x, y⟩, need_correct_angle := some true }

/-- Aircraft.is_reloaded: the reload timer is tracked and still below
RELOAD_TIME (reports still-in-cooldown). -/
def is_reloaded (s : AircraftState) : Prop :=
  match s.reload_time with
  | none => False
  | some t => t < Params.Aircraft.RELOAD_TIME

end Aircraft

/-- The launch-eligibility test in Ship.mouseClicked: docked and not in
cooldown. -/
def eligibleForLaunch (ac : AircraftState) : Prop :=
  Aircraft.is_hidden ac ∧ ¬ Aircraft.is_reloaded ac

-- ------------------------------------------------------
--    Ship state and behaviour
-- ------------------------------------------------------

structure ShipState where
  model : Bool
  position : Vector2
  angle : ℝ
  input : InputState
  aircrafts : List AircraftState

namespace Ship

/-- Linear speed resolution in Ship.update: forward wins over backward. -/
def resolveLinearSpeed (input : InputState) : ℝ :=
  if input.forward = true then Params.Ship.LINEAR_SPEED
  else if input.backward = true then -Params.Ship.LINEAR_SPEED
  else 0

/-- Angular speed resolution in Ship.update: turning only while moving. -/
def resolveAngularSpeed (input : InputState) (linearSpeed : ℝ) : ℝ :=
  if input.left = true ∧ linearSpeed ≠ 0 then Params.Ship.ANGULAR_SPEED
  else if input.right = true ∧ linearSpeed ≠ 0 then -Params.Ship.ANGULAR_SPEED
  else 0

/-- Ship.update: integrate the ship pose, then update every aircraft with
the new pose as reference. -/
def update (s : ShipState) (dt : ℝ) : ShipState :=
  let linearSpeed := resolveLinearSpeed s.input
  let angularSpeed := resolveAngularSpeed s.input linearSpeed
  let angle := s.angle + angularSpeed * dt
  let position := s.position +
    ((Vector2.mk (Real.cos angle) (Real.sin angle)).smul linearSpeed).smul dt
  { s with angle := angle, position := position,
           aircrafts := s.aircrafts.map (fun ac => Aircraft.update ac dt position angle) }

/-- The secondary-button loop of Ship.mouseClicked: launch the first
docked, non-cooling-down aircraft and stop. -/
def launchFirst (position : Vector2) (angle : ℝ) :
    List AircraftState → List AircraftState
  | [] => []
  | ac :: rest =>
    if eligibleForLaunch ac then Aircraft.init ac position angle :: rest
    else ac :: launchFirst position angle rest

/-- Ship.mouseClicked: primary button retargets every aircraft, secondary
button launches the first eligible one. -/
def mouseClicked (s : ShipState) (x y : ℝ) (isLeftButton : Bool) : ShipState :=
  if isLeftButton = true then
    { s with aircrafts := s.aircrafts.map (fun ac => Aircraft.set_target ac x y) }
  else
    { s with aircrafts := launchFirst s.position s.angle s.aircrafts }

end Ship

-- ------------------------------------------------------
--    Reachable aircraft states under the public operations
-- ------------------------------------------------------

/-- Aircraft states reachable through the public operations: construction,
launch (guarded by the assert in Aircraft.init and the is_hidden test at
the only call site), dock, retarget and the per-tick update. -/
inductive ReachableAircraft : AircraftState → Prop where
  | fresh : ReachableAircraft freshAircraft
  | launch (s : AircraftState) (pos : Vector2) (ang : ℝ) :
      ReachableAircraft s → s.model = false →
      ReachableAircraft (Aircraft.init s pos ang)
  | dock (s : AircraftState) (is_restart : Bool) :
      ReachableAircraft s → ReachableAircraft (Aircraft.deinit s is_restart)
  | retarget (s : AircraftState) (x y : ℝ) :
      ReachableAircraft s → ReachableAircraft (Aircraft.set_target s x y)
  | step (s : AircraftState) (dt : ℝ) (ship_pos : Vector2) (ship_angle : ℝ) :
      ReachableAircraft s → ReachableAircraft (Aircraft.update s dt ship_pos ship_angle)

-- ------------------------------------------------------
--    Concrete states used by witnesses and counterexamples
-- ------------------------------------------------------

/-- An airborne aircraft cruising at full speed with a target inside its
rotation radius but outside the near-zero band. -/
def sampleCruise : AircraftState :=
  { a := ⟨1, 0⟩, angle := 0, flight_time := 0, input := noKeys, model := true,
    need_correct_angle := some false, position := ⟨0, 0⟩, reload_time := none,
    rotation_radius := 4/5, start_pos := ⟨0, 0⟩, target := some ⟨1/2, 0⟩,
    v := ⟨2, 0⟩, v_abs := 2 }

/-- The same cruising aircraft with its target inside the near-zero band. -/
def sampleAtTarget : AircraftState := { sampleCruise with target := some ⟨1/20, 0⟩ }

/-- The same cruising aircraft pushed beyond the right window bound. -/
def sampleOutOfBounds : AircraftState :=
  { sampleCruise with position := ⟨9, 0⟩, target := none }

/-- An airborne aircraft with the course correction armed and a target
inside its rotation radius. -/
def sampleArmed : AircraftState :=
  { sampleCruise with
    need_correct_angle := some true, target := some ⟨3, 4⟩,
    rotation_radius := 10 }

/-- A docked aircraft still cooling down. -/
def sampleReloading : AircraftState := { freshAircraft with reload_time := some 1 }

/-- A ship holding only the left key. -/
def shipLeftOnly : ShipState :=
  { model := true, position := ⟨1, 2⟩, angle := 0,
    input := ⟨false, false, true, false⟩, aircrafts := [] }

/-- A ship whose single aircraft is docked and launch-eligible. -/
def shipOneFresh : ShipState :=
  { model := true, position := ⟨0, 0⟩, angle := 0, input := noKeys,
    aircrafts := [freshAircraft] }

/-- A ship whose single aircraft is airborne. -/
def shipAllAirborne : ShipState := { shipOneFresh with aircrafts := [sampleCruise] }

/-- The cruising sample aircraft after the flight-time accumulation of one
cruise tick with dt equal to one. -/
def sampleCruise1 : AircraftState :=
  { sampleCruise with flight_time := sampleCruise.flight_time + 1 }

end

-- ------------------------------------------------------
--    Vector2 helper lemmas
-- ------------------------------------------------------

@[simp] theorem Vector2.add_x (a b : Vector2) : (a + b).x = a.x + b.x := rfl

@[simp] theorem Vector2.add_y (a b : Vector2) : (a + b).y = a.y + b.y := rfl

@[simp] theorem Vector2.sub_x (a b : Vector2) : (a - b).x = a.x - b.x := rfl

@[simp] theorem Vector2.sub_y (a b : Vector2) : (a - b).y = a.y - b.y := rfl

@[simp] theorem Vector2.neg_x (a : Vector2) : (-a).x = -a.x := rfl

@[simp] theorem Vector2.neg_y (a : Vector2) : (-a).y = -a.y := rfl

@[simp] theorem Vector2.smul_x (v : Vector2) (c : ℝ) : (v.smul c).x = v.x * c := rfl

@[simp] theorem Vector2.smul_y (v : Vector2) (c : ℝ) : (v.smul c).y = v.y * c := rfl

theorem Vector2.dot_def (v w : Vector2) : v.dot w = v.x * w.x + v.y * w.y := rfl

theorem Vector2.vabs_def (v : Vector2) :
    v.vabs = Real.sqrt (v.x * v.x + v.y * v.y) := rfl

theorem Vector2.vabs_nonneg (v : Vector2) : 0 ≤ v.vabs := Real.sqrt_nonneg _

theorem Vector2.vabs_eval (x y b : ℝ) (hb : 0 ≤ b) (h : x * x + y * y = b * b) :
    Vector2.vabs ⟨x, y⟩ = b := by
  rw [Vector2.vabs_def]
  dsimp only
  rw [h, Real.sqrt_mul_self hb]

theorem Vector2.clampUnit_mem (value : ℝ) :
    -1 ≤ Vector2.clampUnit value ∧ Vector2.clampUnit value ≤ 1 := by
  unfold Vector2.clampUnit
  split_ifs with h1 h2 <;> constructor <;> linarith

theorem Vector2.clampUnit_one : Vector2.clampUnit 1 = 1 := by
  unfold Vector2.clampUnit
  norm_num

theorem Vector2.clampUnit_neg_one : Vector2.clampUnit (-1) = -1 := by
  unfold Vector2.clampUnit
  norm_num

theorem Vector2.sq_sum_pos (v : Vector2) (h : ¬ v = ⟨0, 0⟩) :
    0 < v.x * v.x + v.y * v.y := by
  have hxy : v.x ≠ 0 ∨ v.y ≠ 0 := by
    by_contra hc
    push_neg at hc
    exact h (Vector2.ext hc.1 hc.2)
  rcases hxy with hx | hy
  · nlinarith [mul_self_nonneg v.y, (mul_self_pos).mpr hx]
  · nlinarith [mul_self_nonneg v.x, (mul_self_pos).mpr hy]

theorem Vector2.vabs_pos (v : Vector2) (h : ¬ v = ⟨0, 0⟩) : 0 < v.vabs :=
  Real.sqrt_pos.mpr (Vector2.sq_sum_pos v h)

theorem Vector2.vabs_cos_sin_smul (θ c : ℝ) (hc : 0 ≤ c) :
    ((Vector2.mk (Real.cos θ) (Real.sin θ)).smul c).vabs = c := by
  rw [Vector2.vabs_def]
  have key : ((Vector2.mk (Real.cos θ) (Real.sin θ)).smul c).x *
        ((Vector2.mk (Real.cos θ) (Real.sin θ)).smul c).x +
        ((Vector2.mk (Real.cos θ) (Real.sin θ)).smul c).y *
        ((Vector2.mk (Real.cos θ) (Real.sin θ)).smul c).y = c * c := by
    simp only [Vector2.smul_x, Vector2.smul_y]
    have h := Real.sin_sq_add_cos_sq θ
    nlinarith [h]
  rw [key, Real.sqrt_mul_self hc]

theorem Vector2.angle_between_mem (v w : Vector2) :
    0 ≤ Vector2.angle_between v w ∧ Vector2.angle_between v w ≤ Real.pi :=
  ⟨Real.arccos_nonneg _, Real.arccos_le_pi _⟩

theorem Vector2.angle_between_self (v : Vector2) (h : ¬ v = ⟨0, 0⟩) :
    Vector2.angle_between v v = 0 := by
  unfold Vector2.angle_between
  have hS := Vector2.sq_sum_pos v h
  have hd : v.dot v = v.x * v.x + v.y * v.y := rfl
  have hm : v.vabs * v.vabs = v.x * v.x + v.y * v.y :=
    Real.mul_self_sqrt hS.le
  rw [hd, hm, div_self hS.ne', Vector2.clampUnit_one, Real.arccos_one]

theorem Vector2.angle_between_neg_self (v : Vector2) (h : ¬ v = ⟨0, 0⟩) :
    Vector2.angle_between v (-v) = Real.pi := by
  unfold Vector2.angle_between
  have hS := Vector2.sq_sum_pos v h
  have hd : v.dot (-v) = -(v.x * v.x + v.y * v.y) := by
    rw [Vector2.dot_def]
    simp only [Vector2.neg_x, Vector2.neg_y]
    ring
  have habs : (-v).vabs = v.vabs := by
    rw [Vector2.vabs_def, Vector2.vabs_def]
    simp only [Vector2.neg_x, Vector2.neg_y]
    ring_nf
  have hm : v.vabs * v.vabs = v.x * v.x + v.y * v.y :=
    Real.mul_self_sqrt hS.le
  rw [hd, habs, hm, neg_div, div_self hS.ne', Vector2.clampUnit_neg_one,
    Real.arccos_neg_one]

/-- Evaluation lemma for angle_between on exactly aligned vectors with
positive components along the same ray: the clamped cosine is 1 and the
angle is zero. -/
theorem Vector2.angle_between_aligned (v w : Vector2)
    (hv : ¬ v = ⟨0, 0⟩) (hw : ¬ w = ⟨0, 0⟩)
    (hdot : v.dot w = v.vabs * w.vabs) :
    Vector2.angle_between v w = 0 := by
  unfold Vector2.angle_between
  have hvw : 0 < v.vabs * w.vabs :=
    mul_pos (Vector2.vabs_pos v hv) (Vector2.vabs_pos w hw)
  rw [hdot, div_self hvw.ne', Vector2.clampUnit_one, Real.arccos_one]

-- ------------------------------------------------------
--    Aircraft step lemmas: what each routine leaves untouched
-- ------------------------------------------------------

namespace Aircraft

theorem flight_around_angle (s : AircraftState) (dt : ℝ) :
    (flight_around s dt).angle = s.angle + Params.Aircraft.ANGULAR_SPEED * dt := rfl

theorem flight_around_v (s : AircraftState) (dt : ℝ) :
    (flight_around s dt).v =
      (Vector2.mk (Real.cos (s.angle + Params.Aircraft.ANGULAR_SPEED * dt))
        (Real.sin (s.angle + Params.Aircraft.ANGULAR_SPEED * dt))).smul s.v_abs := rfl

theorem flight_around_a (s : AircraftState) (dt : ℝ) :
    (flight_around s dt).a =
      (Vector2.mk (Real.cos (s.angle + Params.Aircraft.ANGULAR_SPEED * dt))
        (Real.sin (s.angle + Params.Aircraft.ANGULAR_SPEED * dt))).smul s.a.vabs := rfl

theorem flight_around_model (s : AircraftState) (dt : ℝ) :
    (flight_around s dt).model = s.model := rfl

theorem flight_around_reload (s : AircraftState) (dt : ℝ) :
    (flight_around s dt).reload_time = s.reload_time := rfl

theorem flight_around_v_abs (s : AircraftState) (dt : ℝ) :
    (flight_around s dt).v_abs = s.v_abs := rfl

theorem flight_around_target_eq (s : AircraftState) (dt : ℝ) :
    (flight_around s dt).target = s.target := rfl

theorem flight_around_need (s : AircraftState) (dt : ℝ) :
    (flight_around s dt).need_correct_angle = s.need_correct_angle := rfl

theorem flight_around_position (s : AircraftState) (dt : ℝ) :
    (flight_around s dt).position = s.position := rfl

theorem flight_around_flight_time (s : AircraftState) (dt : ℝ) :
    (flight_around s dt).flight_time = s.flight_time := rfl

theorem deinit_v_abs (s : AircraftState) (b : Bool) :
    (deinit s b).v_abs = s.v_abs := by
  unfold deinit; split <;> rfl

theorem deinit_target (s : AircraftState) (b : Bool) :
    (deinit s b).target = s.target := by
  unfold deinit; split <;> rfl

theorem deinit_need (s : AircraftState) (b : Bool) :
    (deinit s b).need_correct_angle = s.need_correct_angle := by
  unfold deinit; split <;> rfl

theorem deinit_position (s : AircraftState) (b : Bool) :
    (deinit s b).position = s.position := by
  unfold deinit; split <;> rfl

theorem deinit_flight_time (s : AircraftState) (b : Bool) :
    (deinit s b).flight_time = s.flight_time := by
  unfold deinit; split <;> rfl

/-- With is_deinit unset the dock test of __flight_to_target is dead code. -/
theorem flight_to_target_false (s : AircraftState) (t : Vector2) (dt : ℝ) :
    flight_to_target s t dt false =
      if Vector2.angle_between (t - s.position) s.v > Params.DEGREES_EPS
      then flight_around s dt else s := by
  unfold flight_to_target
  simp

theorem flight_to_target_v_abs (s : AircraftState) (t : Vector2) (dt : ℝ) (b : Bool) :
    (flight_to_target s t dt b).v_abs = s.v_abs := by
  unfold flight_to_target
  dsimp only
  split_ifs <;> first | rfl | exact deinit_v_abs s false

theorem flight_to_target_target (s : AircraftState) (t : Vector2) (dt : ℝ) (b : Bool) :
    (flight_to_target s t dt b).target = s.target := by
  unfold flight_to_target
  dsimp only
  split_ifs <;> first | rfl | exact deinit_target s false

theorem flight_to_target_need (s : AircraftState) (t : Vector2) (dt : ℝ) (b : Bool) :
    (flight_to_target s t dt b).need_correct_angle = s.need_correct_angle := by
  unfold flight_to_target
  dsimp only
  split_ifs <;> first | rfl | exact deinit_need s false

theorem flight_to_target_position (s : AircraftState) (t : Vector2) (dt : ℝ) (b : Bool) :
    (flight_to_target s t dt b).position = s.position := by
  unfold flight_to_target
  dsimp only
  split_ifs <;> first | rfl | exact deinit_position s false

theorem flight_to_target_flight_time (s : AircraftState) (t : Vector2) (dt : ℝ) (b : Bool) :
    (flight_to_target s t dt b).flight_time = s.flight_time := by
  unfold flight_to_target
  dsimp only
  split_ifs <;> first | rfl | exact deinit_flight_time s false

/-- The dock and the turn in __flight_to_target are the only effects. -/
theorem flight_to_target_model_reload (s : AircraftState) (t : Vector2) (dt : ℝ) (b : Bool) :
    ((flight_to_target s t dt b).model = s.model ∧
     (flight_to_target s t dt b).reload_time = s.reload_time) ∨
    ((flight_to_target s t dt b).model = false ∧
     (flight_to_target s t dt b).reload_time = some 0) := by
  unfold flight_to_target
  dsimp only
  split_ifs with h1 h2
  · unfold deinit
    split_ifs with h3 h4
    · exact Or.inl ⟨rfl, rfl⟩
    · exact h4.elim
    · exact Or.inr ⟨rfl, rfl⟩
  · exact Or.inl ⟨rfl, rfl⟩
  · exact Or.inl ⟨rfl, rfl⟩

theorem correct_course_model (s : AircraftState) (t tv : Vector2) :
    (correct_course s t tv).model = s.model := by
  unfold correct_course; split_ifs <;> rfl

theorem correct_course_reload (s : AircraftState) (t tv : Vector2) :
    (correct_course s t tv).reload_time = s.reload_time := by
  unfold correct_course; split_ifs <;> rfl

theorem correct_course_v_abs (s : AircraftState) (t tv : Vector2) :
    (correct_course s t tv).v_abs = s.v_abs := by
  unfold correct_course; split_ifs <;> rfl

theorem correct_course_position (s : AircraftState) (t tv : Vector2) :
    (correct_course s t tv).position = s.position := by
  unfold correct_course; split_ifs <;> rfl

theorem correct_course_angle (s : AircraftState) (t tv : Vector2) :
    (correct_course s t tv).angle = s.angle := by
  unfold correct_course; split_ifs <;> rfl

theorem correct_course_v (s : AircraftState) (t tv : Vector2) :
    (correct_course s t tv).v = s.v := by
  unfold correct_course; split_ifs <;> rfl

theorem correct_course_a (s : AircraftState) (t tv : Vector2) :
    (correct_course s t tv).a = s.a := by
  unfold correct_course; split_ifs <;> rfl

theorem correct_course_flight_time (s : AircraftState) (t tv : Vector2) :
    (correct_course s t tv).flight_time = s.flight_time := by
  unfold correct_course; split_ifs <;> rfl

theorem flight_to_target_false_model (s : AircraftState) (t : Vector2) (dt : ℝ) :
    (flight_to_target s t dt false).model = s.model := by
  rw [flight_to_target_false]
  split_ifs
  · exact flight_around_model s dt
  · rfl

theorem flight_to_target_false_reload (s : AircraftState) (t : Vector2) (dt : ℝ) :
    (flight_to_target s t dt false).reload_time = s.reload_time := by
  rw [flight_to_target_false]
  split_ifs
  · exact flight_around_reload s dt
  · rfl

theorem flight_around_target_v_abs (s : AircraftState) (dt : ℝ) :
    (flight_around_target s dt).v_abs = s.v_abs := by
  unfold flight_around_target
  cases h : s.target with
  | none => rfl
  | some t =>
    dsimp only
    split_ifs <;>
      simp only [flight_around_v_abs, flight_to_target_v_abs, correct_course_v_abs]

theorem flight_around_target_model (s : AircraftState) (dt : ℝ) :
    (flight_around_target s dt).model = s.model := by
  unfold flight_around_target
  cases h : s.target with
  | none => rfl
  | some t =>
    dsimp only
    split_ifs <;>
      simp only [flight_around_model, flight_to_target_false_model, correct_course_model]

theorem flight_around_target_reload (s : AircraftState) (dt : ℝ) :
    (flight_around_target s dt).reload_time = s.reload_time := by
  unfold flight_around_target
  cases h : s.target with
  | none => rfl
  | some t =>
    dsimp only
    split_ifs <;>
      simp only [flight_around_reload, flight_to_target_false_reload, correct_course_reload]

theorem flight_around_target_position (s : AircraftState) (dt : ℝ) :
    (flight_around_target s dt).position = s.position := by
  unfold flight_around_target
  cases h : s.target with
  | none => rfl
  | some t =>
    dsimp only
    split_ifs <;>
      simp only [flight_around_position, flight_to_target_position, correct_course_position]

/-- Orbiting with the target inside the rotation radius reduces to the
correction block followed by the null test on the original target vector. -/
theorem flight_around_target_null (s : AircraftState) (t : Vector2) (dt : ℝ)
    (ht : s.target = some t) (hnull : (t - s.position).is_null) :
    flight_around_target s dt =
      flight_around (if (t - s.position).vabs ≤ s.rotation_radius
                     then correct_course s t (t - s.position) else s) dt := by
  unfold flight_around_target
  rw [ht]
  dsimp only
  rw [if_pos hnull]

/-- Fields of the circling step when the target vector is near-zero. -/
theorem flight_around_target_null_fields (s : AircraftState) (t : Vector2) (dt : ℝ)
    (ht : s.target = some t) (hnull : (t - s.position).is_null) :
    (flight_around_target s dt).angle = s.angle + Params.Aircraft.ANGULAR_SPEED * dt ∧
    (flight_around_target s dt).v =
      (Vector2.mk (Real.cos (s.angle + Params.Aircraft.ANGULAR_SPEED * dt))
        (Real.sin (s.angle + Params.Aircraft.ANGULAR_SPEED * dt))).smul s.v_abs ∧
    (flight_around_target s dt).a =
      (Vector2.mk (Real.cos (s.angle + Params.Aircraft.ANGULAR_SPEED * dt))
        (Real.sin (s.angle + Params.Aircraft.ANGULAR_SPEED * dt))).smul s.a.vabs := by
  rw [flight_around_target_null s t dt ht hnull]
  split_ifs with h
  · refine ⟨?_, ?_, ?_⟩
    · rw [flight_around_angle, correct_course_angle]
    · rw [flight_around_v, correct_course_angle, correct_course_v_abs]
    · rw [flight_around_a, correct_course_angle, correct_course_a]
  · exact ⟨flight_around_angle s dt, flight_around_v s dt, flight_around_a s dt⟩

/-- The target and correction flag after orbiting inside the rotation
radius are those produced by the correction block. -/
theorem flight_around_target_corrected (s : AircraftState) (t : Vector2) (dt : ℝ)
    (ht : s.target = some t)
    (hnear : (t - s.position).vabs ≤ s.rotation_radius) :
    (flight_around_target s dt).target = (correct_course s t (t - s.position)).target ∧
    (flight_around_target s dt).need_correct_angle =
      (correct_course s t (t - s.position)).need_correct_angle := by
  unfold flight_around_target
  rw [ht]
  dsimp only
  rw [if_pos hnear]
  split_ifs with h1
  · exact ⟨flight_around_target_eq _ dt, flight_around_need _ dt⟩
  · exact ⟨flight_to_target_target _ _ dt false, flight_to_target_need _ _ dt false⟩

theorem oobStep_v_abs (s : AircraftState) (dt : ℝ) :
    (oobStep s dt).v_abs = s.v_abs := by
  unfold oobStep
  split_ifs
  · exact flight_to_target_v_abs s _ dt false
  · rfl

theorem oobStep_model (s : AircraftState) (dt : ℝ) :
    (oobStep s dt).model = s.model := by
  unfold oobStep
  split_ifs
  · exact flight_to_target_false_model s _ dt
  · rfl

theorem oobStep_reload (s : AircraftState) (dt : ℝ) :
    (oobStep s dt).reload_time = s.reload_time := by
  unfold oobStep
  split_ifs
  · exact flight_to_target_false_reload s _ dt
  · rfl

theorem oobStep_flight_time (s : AircraftState) (dt : ℝ) :
    (oobStep s dt).flight_time = s.flight_time := by
  unfold oobStep
  split_ifs
  · exact flight_to_target_flight_time s _ dt false
  · rfl

theorem oobStep_in_bounds (s : AircraftState) (dt : ℝ) (h : ¬ outOfBounds s.position) :
    oobStep s dt = s := by
  unfold oobStep
  exact if_neg h

theorem speedUp_model (s : AircraftState) (dt sa : ℝ) :
    (speedUp s dt sa).model = s.model := by
  unfold speedUp
  dsimp only
  split_ifs
  · rfl
  · exact flight_around_target_model s dt
  · rfl

theorem speedUp_reload (s : AircraftState) (dt sa : ℝ) :
    (speedUp s dt sa).reload_time = s.reload_time := by
  unfold speedUp
  dsimp only
  split_ifs
  · rfl
  · exact flight_around_target_reload s dt
  · rfl

theorem integrateStep_model (s : AircraftState) (dt : ℝ) :
    (integrateStep s dt).model = s.model := by
  unfold integrateStep; split_ifs <;> rfl

theorem integrateStep_reload (s : AircraftState) (dt : ℝ) :
    (integrateStep s dt).reload_time = s.reload_time := by
  unfold integrateStep; split_ifs <;> rfl

theorem integrateStep_v_abs (s : AircraftState) (dt : ℝ) :
    (integrateStep s dt).v_abs = s.v_abs := by
  unfold integrateStep; split_ifs <;> rfl

theorem integrateStep_angle (s : AircraftState) (dt : ℝ) :
    (integrateStep s dt).angle = s.angle := by
  unfold integrateStep; split_ifs <;> rfl

theorem integrateStep_v (s : AircraftState) (dt : ℝ) :
    (integrateStep s dt).v = s.v := by
  unfold integrateStep; split_ifs <;> rfl

theorem integrateStep_a (s : AircraftState) (dt : ℝ) :
    (integrateStep s dt).a = s.a := by
  unfold integrateStep; split_ifs <;> rfl

theorem update_airborne (s : AircraftState) (dt : ℝ) (sp : Vector2) (sa : ℝ)
    (hm : s.model = true) :
    update s dt sp sa = integrateStep (phaseStep (oobStep s dt) dt sp sa) dt := by
  unfold update
  rw [if_neg]
  simp [hm]

theorem phaseStep_v_abs (s : AircraftState) (dt : ℝ) (sp : Vector2) (sa : ℝ)
    (hv : ¬ s.v_abs < Params.Aircraft.LINEAR_SPEED) :
    (phaseStep s dt sp sa).v_abs = s.v_abs := by
  unfold phaseStep
  rw [if_neg hv]
  dsimp only
  split_ifs with h1 h2
  · rw [flight_around_target_v_abs]
  · rfl
  · rw [flight_to_target_v_abs]

theorem phaseStep_model_reload (s : AircraftState) (dt : ℝ) (sp : Vector2) (sa : ℝ) :
    ((phaseStep s dt sp sa).model = s.model ∧
     (phaseStep s dt sp sa).reload_time = s.reload_time) ∨
    ((phaseStep s dt sp sa).model = false ∧
     (phaseStep s dt sp sa).reload_time = some 0) := by
  unfold phaseStep
  dsimp only
  split_ifs with h1 h2 h3
  · exact Or.inl ⟨speedUp_model s dt sa, speedUp_reload s dt sa⟩
  · exact Or.inl ⟨by rw [flight_around_target_model], by rw [flight_around_target_reload]⟩
  · exact Or.inl ⟨rfl, rfl⟩
  · exact flight_to_target_model_reload s sp dt true

/-- One tick preserves the reload-only-while-docked invariant. -/
theorem update_inv (s : AircraftState) (dt : ℝ) (sp : Vector2) (sa : ℝ)
    (h : s.reload_time ≠ none → s.model = false) :
    (update s dt sp sa).reload_time ≠ none → (update s dt sp sa).model = false := by
  unfold update
  split_ifs with hm
  · intro _
    show s.model = false
    exact hm
  · intro hr
    have hrel : s.reload_time = none := by
      by_contra hc
      exact hm (h hc)
    rcases phaseStep_model_reload (oobStep s dt) dt sp sa with ⟨hpm, hpr⟩ | ⟨hpm, hpr⟩
    · exfalso
      rw [integrateStep_reload, hpr, oobStep_reload, hrel] at hr
      exact hr rfl
    · rw [integrateStep_model, hpm]

theorem set_target_model (s : AircraftState) (x y : ℝ) :
    (set_target s x y).model = s.model := by
  unfold set_target is_hidden; split_ifs <;> rfl

theorem set_target_reload (s : AircraftState) (x y : ℝ) :
    (set_target s x y).reload_time = s.reload_time := by
  unfold set_target is_hidden; split_ifs <;> rfl

theorem init_reload (s : AircraftState) (p : Vector2) (ang : ℝ) :
    (init s p ang).reload_time = none := rfl

theorem init_model (s : AircraftState) (p : Vector2) (ang : ℝ) :
    (init s p ang).model = true := rfl

end Aircraft

-- ------------------------------------------------------
--    Claim C2
-- ------------------------------------------------------

/-- C2: is_reloaded returns true exactly when the reload timer is present
and strictly below RELOAD_TIME (it reports still-in-cooldown); a freshly
constructed aircraft has is_reloaded false and is docked, and the absent
timer leaves it eligible for its initial launch. -/
theorem C2_is_reloaded_semantics :
    (∀ s : AircraftState,
      Aircraft.is_reloaded s ↔
        ∃ t, s.reload_time = some t ∧ t < Params.Aircraft.RELOAD_TIME) ∧
    ¬ Aircraft.is_reloaded freshAircraft ∧
    Aircraft.is_hidden freshAircraft ∧
    eligibleForLaunch freshAircraft := by
  refine ⟨fun s => ?_, fun h => h, rfl, rfl, fun h => h⟩
  unfold Aircraft.is_reloaded
  cases h : s.reload_time with
  | none => simp
  | some t => simp

theorem C2_witness : Aircraft.is_reloaded sampleReloading :=
  (C2_is_reloaded_semantics.1 sampleReloading).mpr
    ⟨1, rfl, by norm_num [Params.Aircraft.RELOAD_TIME]⟩

-- ------------------------------------------------------
--    Claim C3
-- ------------------------------------------------------

/-- C3 counterexample: the claimed invariant that the reload timer is
present exactly when the handle is absent fails at the freshly constructed
(reachable) aircraft, whose handle and reload timer are both absent. -/
theorem C3_counterexample :
    ¬ (∀ s : AircraftState, ReachableAircraft s →
        (s.reload_time ≠ none ↔ s.model = false)) := by
  intro h
  exact (h freshAircraft ReachableAircraft.fresh).mpr rfl rfl

/-- C3 amended: in every state reachable through the public operations, an
aircraft is airborne exactly when its handle is present, and whenever the
reload timer is present the handle is absent (both may be absent, as on a
never-launched or fully torn-down aircraft). -/
theorem C3_reload_only_when_docked (s : AircraftState) (h : ReachableAircraft s) :
    s.reload_time ≠ none → s.model = false := by
  induction h with
  | fresh => intro hr; exact absurd rfl hr
  | launch s pos ang hs hm ih =>
    rw [Aircraft.init_reload, Aircraft.init_model]
    intro hr
    exact absurd rfl hr
  | dock s b hs ih =>
    unfold Aircraft.deinit
    split_ifs with h1
    · exact ih
    all_goals intro _; rfl
  | retarget s x y hs ih =>
    rw [Aircraft.set_target_reload, Aircraft.set_target_model]
    exact ih
  | step s dt sp sa hs ih => exact Aircraft.update_inv s dt sp sa ih

theorem C3_witness :
    (Aircraft.deinit (Aircraft.init freshAircraft ⟨0, 0⟩ 0) false).model = false := by
  apply C3_reload_only_when_docked
  · exact ReachableAircraft.dock _ false
      (ReachableAircraft.launch _ _ _ ReachableAircraft.fresh rfl)
  · show some (0 : ℝ) ≠ none
    simp

-- ------------------------------------------------------
--    Claim C4
-- ------------------------------------------------------

/-- C4: Ship.update resolves linear speed with forward winning over
backward and zero when neither is held; angular speed can only be nonzero
when linear speed is nonzero; and with neither forward nor backward held
(in particular with only left or right held, or no keys at all) one tick
leaves the ship heading and position unchanged. -/
theorem C4_ship_speed_resolution (s : ShipState) (dt : ℝ) :
    (s.input.forward = true →
       Ship.resolveLinearSpeed s.input = Params.Ship.LINEAR_SPEED) ∧
    (s.input.forward = false → s.input.backward = true →
       Ship.resolveLinearSpeed s.input = -Params.Ship.LINEAR_SPEED) ∧
    (s.input.forward = false → s.input.backward = false →
       Ship.resolveLinearSpeed s.input = 0) ∧
    (Ship.resolveAngularSpeed s.input (Ship.resolveLinearSpeed s.input) ≠ 0 →
       Ship.resolveLinearSpeed s.input ≠ 0) ∧
    (s.input.forward = false → s.input.backward = false →
       (Ship.update s dt).angle = s.angle ∧ (Ship.update s dt).position = s.position) := by
  refine ⟨fun h => ?_, fun h1 h2 => ?_, fun h1 h2 => ?_, fun hne h0 => ?_, fun h1 h2 => ?_⟩
  · unfold Ship.resolveLinearSpeed
    rw [if_pos h]
  · unfold Ship.resolveLinearSpeed
    rw [if_neg (by simp [h1]), if_pos h2]
  · unfold Ship.resolveLinearSpeed
    rw [if_neg (by simp [h1]), if_neg (by simp [h2])]
  · apply hne
    unfold Ship.resolveAngularSpeed
    simp [h0]
  · have hl : Ship.resolveLinearSpeed s.input = 0 := by
      unfold Ship.resolveLinearSpeed
      rw [if_neg (by simp [h1]), if_neg (by simp [h2])]
    have ha : Ship.resolveAngularSpeed s.input 0 = 0 := by
      unfold Ship.resolveAngularSpeed
      simp
    unfold Ship.update
    dsimp only
    rw [hl, ha]
    constructor
    · ring
    · apply Vector2.ext <;> simp

theorem C4_witness :
    (Ship.update shipLeftOnly 1).angle = shipLeftOnly.angle ∧
    (Ship.update shipLeftOnly 1).position = shipLeftOnly.position :=
  (C4_ship_speed_resolution shipLeftOnly 1).2.2.2.2 rfl rfl

-- ------------------------------------------------------
--    Claim C6
-- ------------------------------------------------------

/-- C6: a primary-button click applies set_target to every aircraft in the
fleet; set_target on a docked aircraft is a silent no-op leaving the state
identical, and on an airborne aircraft stores the clicked point as target
and arms the course correction while touching no other field. -/
theorem C6_primary_click_targets (s : ShipState) (x y : ℝ) :
    Ship.mouseClicked s x y true =
      { s with aircrafts := s.aircrafts.map (fun ac => Aircraft.set_target ac x y) } ∧
    (∀ ac : AircraftState, ac.model = false → Aircraft.set_target ac x y = ac) ∧
    (∀ ac : AircraftState, ac.model = true →
       Aircraft.set_target ac x y =
         { ac with target := some ⟨x, y⟩, need_correct_angle := some true }) := by
  refine ⟨?_, fun ac h => ?_, fun ac h => ?_⟩
  · unfold Ship.mouseClicked
    rw [if_pos rfl]
  · unfold Aircraft.set_target Aircraft.is_hidden
    rw [if_pos h]
  · unfold Aircraft.set_target Aircraft.is_hidden
    rw [if_neg (by simp [h])]

theorem C6_witness :
    Aircraft.set_target freshAircraft 3 4 = freshAircraft ∧
    Aircraft.set_target sampleCruise 3 4 =
      { sampleCruise with target := some ⟨3, 4⟩, need_correct_angle := some true } :=
  ⟨(C6_primary_click_targets shipOneFresh 3 4).2.1 freshAircraft rfl,
   (C6_primary_click_targets shipOneFresh 3 4).2.2 sampleCruise rfl⟩

-- ------------------------------------------------------
--    Claim C9
-- ------------------------------------------------------

/-- C9: on non-zero vectors, angle_between clamps the normalised dot
product into the closed unit interval before acos, the resulting angle
lies in the closed interval from zero to pi, the angle of a non-zero
vector with itself is zero and with its negation is pi. -/
theorem C9_angle_between_clamped (v w : Vector2)
    (hv : ¬ v = ⟨0, 0⟩) (hw : ¬ w = ⟨0, 0⟩) :
    (-1 ≤ Vector2.clampUnit (Vector2.dot v w / (v.vabs * w.vabs)) ∧
       Vector2.clampUnit (Vector2.dot v w / (v.vabs * w.vabs)) ≤ 1) ∧
    (0 ≤ Vector2.angle_between v w ∧ Vector2.angle_between v w ≤ Real.pi) ∧
    Vector2.angle_between v v = 0 ∧
    Vector2.angle_between v (-v) = Real.pi :=
  ⟨Vector2.clampUnit_mem _, Vector2.angle_between_mem v w,
   Vector2.angle_between_self v hv, Vector2.angle_between_neg_self v hv⟩

theorem C9_witness :
    Vector2.angle_between ⟨3, 4⟩ ⟨3, 4⟩ = 0 ∧
    Vector2.angle_between ⟨3, 4⟩ (-⟨3, 4⟩) = Real.pi := by
  have h := C9_angle_between_clamped ⟨3, 4⟩ ⟨1, 0⟩
    (by norm_num [Vector2.mk.injEq]) (by norm_num [Vector2.mk.injEq])
  exact ⟨h.2.2.1, h.2.2.2⟩

-- ------------------------------------------------------
--    Claim C10
-- ------------------------------------------------------

/-- C10: once the cached speed has reached LINEAR_SPEED, an airborne
update leaves the cached speed unchanged (acceleration is integrated only
below LINEAR_SPEED), and the steering reorientation of flight_around
produces a velocity vector whose magnitude is exactly the cached speed. -/
theorem C10_speed_cap_invariant (s : AircraftState) (dt : ℝ) (sp : Vector2) (sa : ℝ)
    (hm : s.model = true) (hv : Params.Aircraft.LINEAR_SPEED ≤ s.v_abs) :
    (Aircraft.update s dt sp sa).v_abs = s.v_abs ∧
    (0 ≤ s.v_abs → ((Aircraft.flight_around s dt).v).vabs = s.v_abs) := by
  constructor
  · have h1 : ¬ (Aircraft.oobStep s dt).v_abs < Params.Aircraft.LINEAR_SPEED := by
      rw [Aircraft.oobStep_v_abs]
      exact not_lt.mpr hv
    rw [Aircraft.update_airborne s dt sp sa hm, Aircraft.integrateStep_v_abs,
        Aircraft.phaseStep_v_abs _ dt sp sa h1, Aircraft.oobStep_v_abs]
  · intro h0
    rw [Aircraft.flight_around_v, Vector2.vabs_cos_sin_smul _ _ h0]

theorem C10_witness :
    (Aircraft.update sampleCruise 1 ⟨0, 0⟩ 0).v_abs = sampleCruise.v_abs ∧
    (0 ≤ sampleCruise.v_abs →
       ((Aircraft.flight_around sampleCruise 1).v).vabs = sampleCruise.v_abs) :=
  C10_speed_cap_invariant sampleCruise 1 ⟨0, 0⟩ 0 rfl
    (by norm_num [Params.Aircraft.LINEAR_SPEED, sampleCruise])

-- ------------------------------------------------------
--    Claim C5
-- ------------------------------------------------------

theorem launchFirst_no_eligible (pos : Vector2) (ang : ℝ) (l : List AircraftState)
    (h : ∀ b ∈ l, ¬ eligibleForLaunch b) : Ship.launchFirst pos ang l = l := by
  induction l with
  | nil => rfl
  | cons a l ih =>
    unfold Ship.launchFirst
    rw [if_neg (h a (List.mem_cons_self a l)),
        ih (fun b hb => h b (List.mem_cons_of_mem a hb))]

theorem launchFirst_split (pos : Vector2) (ang : ℝ) (l1 : List AircraftState)
    (ac : AircraftState) (l2 : List AircraftState)
    (h1 : ∀ b ∈ l1, ¬ eligibleForLaunch b) (h2 : eligibleForLaunch ac) :
    Ship.launchFirst pos ang (l1 ++ ac :: l2) =
      l1 ++ Aircraft.init ac pos ang :: l2 := by
  induction l1 with
  | nil =>
    unfold Ship.launchFirst
    simp only [List.nil_append]
    rw [if_pos h2]
  | cons a l ih =>
    have hl : (a :: l) ++ ac :: l2 = a :: (l ++ ac :: l2) := rfl
    rw [hl]
    unfold Ship.launchFirst
    rw [if_neg (h1 a (List.mem_cons_self a l)),
        ih (fun b hb => h1 b (List.mem_cons_of_mem a hb))]
    rfl

/-- C5: a secondary-button click launches exactly the first docked,
non-cooling-down aircraft in fleet order from the current ship pose; and
when no aircraft qualifies the click leaves the whole fleet state
unchanged. -/
theorem C5_launch_first_eligible (s : ShipState) (x y : ℝ) :
    (∀ l1 ac l2, s.aircrafts = l1 ++ ac :: l2 →
       (∀ b ∈ l1, ¬ eligibleForLaunch b) → eligibleForLaunch ac →
       Ship.mouseClicked s x y false =
         { s with aircrafts := l1 ++ Aircraft.init ac s.position s.angle :: l2 }) ∧
    ((∀ b ∈ s.aircrafts, ¬ eligibleForLaunch b) → Ship.mouseClicked s x y false = s) := by
  constructor
  · intro l1 ac l2 hsplit h1 h2
    unfold Ship.mouseClicked
    rw [if_neg (by simp), hsplit, launchFirst_split _ _ _ _ _ h1 h2]
  · intro h
    unfold Ship.mouseClicked
    rw [if_neg (by simp), launchFirst_no_eligible _ _ _ h]

theorem C5_witness :
    Ship.mouseClicked shipOneFresh 0 0 false =
      { shipOneFresh with aircrafts := [Aircraft.init freshAircraft ⟨0, 0⟩ 0] } ∧
    Ship.mouseClicked shipAllAirborne 0 0 false = shipAllAirborne := by
  constructor
  · exact (C5_launch_first_eligible shipOneFresh 0 0).1 [] freshAircraft [] rfl
      (by intro b hb; exact absurd hb (List.not_mem_nil b)) ⟨rfl, fun h => h⟩
  · apply (C5_launch_first_eligible shipAllAirborne 0 0).2
    intro b hb
    have hb' : b = sampleCruise := by
      simpa [shipAllAirborne, shipOneFresh] using hb
    subst hb'
    intro hel
    exact absurd hel.1 (by simp [Aircraft.is_hidden, sampleCruise])

-- ------------------------------------------------------
--    Claim C8
-- ------------------------------------------------------

/-- C8: for an airborne aircraft outside the window rectangle, the tick
first applies the steer-toward-the-mirror-point correction and then still
runs the phase branch and position integration of the same tick; the
correction itself advances the heading at the fixed turn rate whenever the
angle to the mirror point exceeds DEGREES_EPS, and does not change phase
(the handle stays present). -/
theorem C8_out_of_bounds_steering (s : AircraftState) (dt : ℝ) (sp : Vector2) (sa : ℝ)
    (hm : s.model = true) (hb : Aircraft.outOfBounds s.position) :
    Aircraft.update s dt sp sa =
      Aircraft.integrateStep
        (Aircraft.phaseStep
          (Aircraft.flight_to_target s (s.position.smul (-1)) dt false) dt sp sa) dt ∧
    (Vector2.angle_between (s.position.smul (-1) - s.position) s.v > Params.DEGREES_EPS →
       (Aircraft.flight_to_target s (s.position.smul (-1)) dt false).angle =
         s.angle + Params.Aircraft.ANGULAR_SPEED * dt ∧
       (Aircraft.flight_to_target s (s.position.smul (-1)) dt false).model = s.model) := by
  constructor
  · rw [Aircraft.update_airborne s dt sp sa hm]
    unfold Aircraft.oobStep
    rw [if_pos hb]
  · intro hangle
    rw [Aircraft.flight_to_target_false, if_pos hangle]
    exact ⟨Aircraft.flight_around_angle s dt, Aircraft.flight_around_model s dt⟩

theorem C8_witness :
    Aircraft.update sampleOutOfBounds 1 ⟨0, 0⟩ 0 =
      Aircraft.integrateStep
        (Aircraft.phaseStep
          (Aircraft.flight_to_target sampleOutOfBounds
            (sampleOutOfBounds.position.smul (-1)) 1 false) 1 ⟨0, 0⟩ 0) 1 ∧
    (Vector2.angle_between
        (sampleOutOfBounds.position.smul (-1) - sampleOutOfBounds.position)
        sampleOutOfBounds.v > Params.DEGREES_EPS →
       (Aircraft.flight_to_target sampleOutOfBounds
          (sampleOutOfBounds.position.smul (-1)) 1 false).angle =
         sampleOutOfBounds.angle + Params.Aircraft.ANGULAR_SPEED * 1 ∧
       (Aircraft.flight_to_target sampleOutOfBounds
          (sampleOutOfBounds.position.smul (-1)) 1 false).model =
         sampleOutOfBounds.model) :=
  C8_out_of_bounds_steering sampleOutOfBounds 1 ⟨0, 0⟩ 0 rfl
    (by norm_num [Aircraft.outOfBounds, sampleOutOfBounds, sampleCruise,
          Params.WIN_WIDTH, Params.WIN_HEIGHT])

-- ------------------------------------------------------
--    Claim C7
-- ------------------------------------------------------

/-- The closed-form correction offset is perpendicular to the approach
vector and its squared magnitude is the squared radius. -/
theorem correction_algebra (R p q : ℝ) (hp : p ≠ 0) :
    (R / Real.sqrt (1 + (q / p) ^ 2) * (q / p)) * p +
      (-(R / Real.sqrt (1 + (q / p) ^ 2))) * q = 0 ∧
    (R / Real.sqrt (1 + (q / p) ^ 2) * (q / p)) *
        (R / Real.sqrt (1 + (q / p) ^ 2) * (q / p)) +
      (R / Real.sqrt (1 + (q / p) ^ 2)) * (R / Real.sqrt (1 + (q / p) ^ 2)) =
      R * R := by
  set k := q / p with hk
  set S := Real.sqrt (1 + k ^ 2) with hS
  have hSpos : 0 < S := Real.sqrt_pos.mpr (by positivity)
  have hSsq : S * S = 1 + k ^ 2 := Real.mul_self_sqrt (by positivity)
  constructor
  · have hkp : k * p = q := by
      rw [hk]; field_simp
    calc R / S * k * p + -(R / S) * q = R / S * (k * p) - R / S * q := by ring
    _ = 0 := by rw [hkp]; ring
  · have h2 : R / S * (R / S) = R * R / (1 + k ^ 2) := by
      rw [div_mul_div_comm, hSsq]
    have hk1 : (1 : ℝ) + k ^ 2 ≠ 0 := by positivity
    calc R / S * k * (R / S * k) + R / S * (R / S)
        = (R / S * (R / S)) * (k ^ 2 + 1) := by ring
    _ = R * R / (1 + k ^ 2) * (k ^ 2 + 1) := by rw [h2]
    _ = R * R := by
      rw [show (k ^ 2 + 1 : ℝ) = 1 + k ^ 2 from by ring, div_mul_cancel₀ _ hk1]

/-- The correction block with the armed flag and a nonzero x component:
the new target differs from the old one by a vector perpendicular to the
approach vector with magnitude exactly the rotation radius, and the flag
is disarmed. -/
theorem correct_course_spec (s : AircraftState) (t tv : Vector2)
    (harmed : s.need_correct_angle = some true) (hx : tv.x ≠ 0)
    (hR : 0 ≤ s.rotation_radius) :
    ∃ tc : Vector2, (Aircraft.correct_course s t tv).target = some tc ∧
      Vector2.dot (tc - t) tv = 0 ∧
      (tc - t).vabs = s.rotation_radius ∧
      (Aircraft.correct_course s t tv).need_correct_angle = some false := by
  obtain ⟨hperp, hsq⟩ := correction_algebra s.rotation_radius tv.x tv.y hx
  unfold Aircraft.correct_course
  rw [if_pos ⟨harmed, hx⟩]
  dsimp only
  rcases lt_or_gt_of_ne hx with hneg | hpos
  · rw [if_neg (lt_asymm hneg), if_pos hneg]
    refine ⟨_, rfl, ?_, ?_, rfl⟩
    · rw [Vector2.dot_def]
      simp only [Vector2.sub_x, Vector2.sub_y]
      linear_combination -hperp
    · rw [Vector2.vabs_def]
      simp only [Vector2.sub_x, Vector2.sub_y]
      rw [show (t.x - s.rotation_radius / Real.sqrt (1 + (tv.y / tv.x) ^ 2) * (tv.y / tv.x) - t.x) *
            (t.x - s.rotation_radius / Real.sqrt (1 + (tv.y / tv.x) ^ 2) * (tv.y / tv.x) - t.x) +
            (t.y + s.rotation_radius / Real.sqrt (1 + (tv.y / tv.x) ^ 2) - t.y) *
            (t.y + s.rotation_radius / Real.sqrt (1 + (tv.y / tv.x) ^ 2) - t.y) =
            s.rotation_radius * s.rotation_radius from by linear_combination hsq]
      exact Real.sqrt_mul_self hR
  · rw [if_pos hpos]
    refine ⟨_, rfl, ?_, ?_, rfl⟩
    · rw [Vector2.dot_def]
      simp only [Vector2.sub_x, Vector2.sub_y]
      linear_combination hperp
    · rw [Vector2.vabs_def]
      simp only [Vector2.sub_x, Vector2.sub_y]
      rw [show (t.x + s.rotation_radius / Real.sqrt (1 + (tv.y / tv.x) ^ 2) * (tv.y / tv.x) - t.x) *
            (t.x + s.rotation_radius / Real.sqrt (1 + (tv.y / tv.x) ^ 2) * (tv.y / tv.x) - t.x) +
            (t.y - s.rotation_radius / Real.sqrt (1 + (tv.y / tv.x) ^ 2) - t.y) *
            (t.y - s.rotation_radius / Real.sqrt (1 + (tv.y / tv.x) ^ 2) - t.y) =
            s.rotation_radius * s.rotation_radius from by linear_combination hsq]
      exact Real.sqrt_mul_self hR

/-- C7: when the one-time course correction fires (flag armed, target
inside the rotation radius and a nonzero x component of the target
vector), the stored target is offset by a vector exactly perpendicular to
the vector toward the target and of magnitude exactly the rotation
radius, and the flag is disarmed; with a zero x component no correction
is applied at all (target and flag unchanged). -/
theorem C7_course_correction (s : AircraftState) (t : Vector2) (dt : ℝ)
    (ht : s.target = some t) (hrad : 0 ≤ s.rotation_radius)
    (hnear : (t - s.position).vabs ≤ s.rotation_radius)
    (harmed : s.need_correct_angle = some true) :
    ((t - s.position).x ≠ 0 →
      ∃ tc : Vector2, (Aircraft.flight_around_target s dt).target = some tc ∧
        Vector2.dot (tc - t) (t - s.position) = 0 ∧
        (tc - t).vabs = s.rotation_radius ∧
        (Aircraft.flight_around_target s dt).need_correct_angle = some false) ∧
    ((t - s.position).x = 0 →
      (Aircraft.flight_around_target s dt).target = some t ∧
      (Aircraft.flight_around_target s dt).need_correct_angle = some true) := by
  obtain ⟨htar, hneed⟩ := Aircraft.flight_around_target_corrected s t dt ht hnear
  constructor
  · intro hx
    obtain ⟨tc, h1, h2, h3, h4⟩ :=
      correct_course_spec s t (t - s.position) harmed hx hrad
    exact ⟨tc, htar.trans h1, h2, h3, hneed.trans h4⟩
  · intro hx0
    have hcc : Aircraft.correct_course s t (t - s.position) = s := by
      unfold Aircraft.correct_course
      rw [if_neg (by simp [hx0])]
    rw [htar, hneed, hcc]
    exact ⟨ht, harmed⟩

theorem C7_witness :
    ((⟨3, 4⟩ - sampleArmed.position : Vector2).x ≠ 0 →
      ∃ tc : Vector2, (Aircraft.flight_around_target sampleArmed 1).target = some tc ∧
        Vector2.dot (tc - ⟨3, 4⟩) (⟨3, 4⟩ - sampleArmed.position) = 0 ∧
        (tc - ⟨3, 4⟩).vabs = sampleArmed.rotation_radius ∧
        (Aircraft.flight_around_target sampleArmed 1).need_correct_angle = some false) ∧
    ((⟨3, 4⟩ - sampleArmed.position : Vector2).x = 0 →
      (Aircraft.flight_around_target sampleArmed 1).target = some ⟨3, 4⟩ ∧
      (Aircraft.flight_around_target sampleArmed 1).need_correct_angle = some true) := by
  apply C7_course_correction sampleArmed ⟨3, 4⟩ 1 rfl
  · norm_num [sampleArmed, sampleCruise]
  · have heq : ((⟨3, 4⟩ : Vector2) - sampleArmed.position) = (⟨3, 4⟩ : Vector2) := by
      show ((⟨3, 4⟩ : Vector2) - (⟨0, 0⟩ : Vector2)) = _
      apply Vector2.ext <;> simp
    rw [heq, Vector2.vabs_eval 3 4 5 (by norm_num) (by norm_num)]
    norm_num [sampleArmed, sampleCruise]
  · rfl

-- ------------------------------------------------------
--    Claim C1
-- ------------------------------------------------------

theorem sampleCruise_phase :
    Aircraft.phaseStep sampleCruise 1 ⟨0, 0⟩ 0 =
      Aircraft.flight_around_target sampleCruise1 1 := by
  unfold Aircraft.phaseStep
  rw [if_neg (show ¬ sampleCruise.v_abs < Params.Aircraft.LINEAR_SPEED by
        norm_num [sampleCruise, Params.Aircraft.LINEAR_SPEED]),
      if_pos (show sampleCruise.flight_time < Params.Aircraft.FLIGHT_TIME by
        norm_num [sampleCruise, Params.Aircraft.FLIGHT_TIME])]
  dsimp only
  rw [if_pos (show sampleCruise.target.isSome = true from rfl)]
  rfl

theorem sampleCruise1_fat :
    Aircraft.flight_around_target sampleCruise1 1 = sampleCruise1 := by
  have hv1 : Vector2.vabs ⟨1/2, 0⟩ = 1/2 :=
    Vector2.vabs_eval (1/2) 0 (1/2) (by norm_num) (by norm_num)
  have hv2 : Vector2.vabs ⟨2, 0⟩ = 2 :=
    Vector2.vabs_eval 2 0 2 (by norm_num) (by norm_num)
  have htv : ((⟨1/2, 0⟩ : Vector2) - sampleCruise1.position) = (⟨1/2, 0⟩ : Vector2) := by
    show ((⟨1/2, 0⟩ : Vector2) - (⟨0, 0⟩ : Vector2)) = _
    apply Vector2.ext <;> norm_num
  have hnn : ¬ (⟨1/2, 0⟩ : Vector2).is_null := by
    intro h
    have h1 := h.1
    norm_num [Params.EPSILON] at h1
  have hcc : Aircraft.correct_course sampleCruise1 ⟨1/2, 0⟩ ⟨1/2, 0⟩ = sampleCruise1 := by
    unfold Aircraft.correct_course
    rw [if_neg (by
      simp [show sampleCruise1.need_correct_angle = some false from rfl])]
  have hdot : Vector2.dot ⟨1/2, 0⟩ ⟨2, 0⟩ =
      Vector2.vabs ⟨1/2, 0⟩ * Vector2.vabs ⟨2, 0⟩ := by
    rw [hv1, hv2, Vector2.dot_def]
    norm_num
  have hang : Vector2.angle_between ⟨1/2, 0⟩ ⟨2, 0⟩ = 0 :=
    Vector2.angle_between_aligned ⟨1/2, 0⟩ ⟨2, 0⟩
      (by norm_num [Vector2.mk.injEq]) (by norm_num [Vector2.mk.injEq]) hdot
  unfold Aircraft.flight_around_target
  rw [show sampleCruise1.target = some ⟨1/2, 0⟩ from rfl]
  dsimp only
  rw [htv, if_neg hnn,
      if_pos (show Vector2.vabs ⟨1/2, 0⟩ ≤ sampleCruise1.rotation_radius by
        rw [hv1]
        show (1/2 : ℝ) ≤ sampleCruise1.rotation_radius
        norm_num [sampleCruise1, sampleCruise]),
      hcc,
      show sampleCruise1.target.getD ⟨1/2, 0⟩ = ⟨1/2, 0⟩ from rfl,
      Aircraft.flight_to_target_false, htv,
      show sampleCruise1.v = (⟨2, 0⟩ : Vector2) from rfl,
      if_neg (by rw [hang]; norm_num [Params.DEGREES_EPS])]

/-- C1 counterexample: the cruising sample aircraft is airborne, has a
target whose distance is within its rotation radius, yet the update does
not advance the heading at all (it steers toward the target instead of
circling), refuting the claimed heading advance by ANGULAR_SPEED times dt
for a positive dt. -/
theorem C1_counterexample :
    sampleCruise.model = true ∧
    sampleCruise.target = some ⟨1/2, 0⟩ ∧
    Vector2.vabs ((⟨1/2, 0⟩ : Vector2) - sampleCruise.position) ≤
      sampleCruise.rotation_radius ∧
    (Aircraft.update sampleCruise 1 ⟨0, 0⟩ 0).angle = sampleCruise.angle ∧
    sampleCruise.angle + Params.Aircraft.ANGULAR_SPEED * 1 ≠ sampleCruise.angle := by
  refine ⟨rfl, rfl, ?_, ?_, ?_⟩
  · have heq : ((⟨1/2, 0⟩ : Vector2) - sampleCruise.position) = (⟨1/2, 0⟩ : Vector2) := by
      show ((⟨1/2, 0⟩ : Vector2) - (⟨0, 0⟩ : Vector2)) = _
      apply Vector2.ext <;> norm_num
    rw [heq, Vector2.vabs_eval (1/2) 0 (1/2) (by norm_num) (by norm_num)]
    show (1/2 : ℝ) ≤ sampleCruise.rotation_radius
    norm_num [sampleCruise]
  · rw [Aircraft.update_airborne _ _ _ _ rfl,
        Aircraft.oobStep_in_bounds _ _ (show ¬ Aircraft.outOfBounds sampleCruise.position by
          norm_num [Aircraft.outOfBounds, sampleCruise, Params.WIN_WIDTH, Params.WIN_HEIGHT]),
        sampleCruise_phase, sampleCruise1_fat, Aircraft.integrateStep_angle]
    rfl
  · norm_num [sampleCruise, Params.Aircraft.ANGULAR_SPEED]

/-- C1 amended: in the cruise phase (airborne, in bounds, cached speed at
LINEAR_SPEED or above, flight time below FLIGHT_TIME) with a target set,
the update circles in place exactly when the vector from position to
target is near-zero (both components within EPSILON): heading advances by
ANGULAR_SPEED times dt, velocity and acceleration are reoriented to the
new heading, and the velocity magnitude equals the cached speed. -/
theorem C1_circles_when_target_reached (s : AircraftState) (t : Vector2)
    (dt : ℝ) (sp : Vector2) (sa : ℝ)
    (hm : s.model = true) (hin : ¬ Aircraft.outOfBounds s.position)
    (hv : ¬ s.v_abs < Params.Aircraft.LINEAR_SPEED)
    (hf : s.flight_time < Params.Aircraft.FLIGHT_TIME)
    (ht : s.target = some t) (hnull : (t - s.position).is_null) :
    (Aircraft.update s dt sp sa).angle = s.angle + Params.Aircraft.ANGULAR_SPEED * dt ∧
    (Aircraft.update s dt sp sa).v =
      (Vector2.mk (Real.cos (s.angle + Params.Aircraft.ANGULAR_SPEED * dt))
        (Real.sin (s.angle + Params.Aircraft.ANGULAR_SPEED * dt))).smul s.v_abs ∧
    (Aircraft.update s dt sp sa).a =
      (Vector2.mk (Real.cos (s.angle + Params.Aircraft.ANGULAR_SPEED * dt))
        (Real.sin (s.angle + Params.Aircraft.ANGULAR_SPEED * dt))).smul s.a.vabs ∧
    (0 ≤ s.v_abs → ((Aircraft.update s dt sp sa).v).vabs = s.v_abs) := by
  have hupd : Aircraft.update s dt sp sa =
      Aircraft.integrateStep (Aircraft.flight_around_target
        { s with flight_time := s.flight_time + dt } dt) dt := by
    rw [Aircraft.update_airborne s dt sp sa hm, Aircraft.oobStep_in_bounds s dt hin]
    unfold Aircraft.phaseStep
    rw [if_neg hv, if_pos hf]
    dsimp only
    rw [if_pos (show s.target.isSome = true from by rw [ht]; rfl)]
  obtain ⟨ha, hv', ha'⟩ :=
    Aircraft.flight_around_target_null_fields
      { s with flight_time := s.flight_time + dt } t dt ht hnull
  rw [hupd]
  refine ⟨?_, ?_, ?_, fun h0 => ?_⟩
  · rw [Aircraft.integrateStep_angle]; exact ha
  · rw [Aircraft.integrateStep_v]; exact hv'
  · rw [Aircraft.integrateStep_a]; exact ha'
  · rw [Aircraft.integrateStep_v, hv']
    exact Vector2.vabs_cos_sin_smul _ _ h0

theorem C1_witness :
    (Aircraft.update sampleAtTarget 1 ⟨0, 0⟩ 0).angle =
      sampleAtTarget.angle + Params.Aircraft.ANGULAR_SPEED * 1 ∧
    (Aircraft.update sampleAtTarget 1 ⟨0, 0⟩ 0).v =
      (Vector2.mk (Real.cos (sampleAtTarget.angle + Params.Aircraft.ANGULAR_SPEED * 1))
        (Real.sin (sampleAtTarget.angle + Params.Aircraft.ANGULAR_SPEED * 1))).smul
        sampleAtTarget.v_abs ∧
    (Aircraft.update sampleAtTarget 1 ⟨0, 0⟩ 0).a =
      (Vector2.mk (Real.cos (sampleAtTarget.angle + Params.Aircraft.ANGULAR_SPEED * 1))
        (Real.sin (sampleAtTarget.angle + Params.Aircraft.ANGULAR_SPEED * 1))).smul
        sampleAtTarget.a.vabs ∧
    (0 ≤ sampleAtTarget.v_abs →
       ((Aircraft.update sampleAtTarget 1 ⟨0, 0⟩ 0).v).vabs = sampleAtTarget.v_abs) :=
  C1_circles_when_target_reached sampleAtTarget ⟨1/20, 0⟩ 1 ⟨0, 0⟩ 0 rfl
    (by norm_num [Aircraft.outOfBounds, sampleAtTarget, sampleCruise,
          Params.WIN_WIDTH, Params.WIN_HEIGHT])
    (by norm_num [sampleAtTarget, sampleCruise, Params.Aircraft.LINEAR_SPEED])
    (by norm_num [sampleAtTarget, sampleCruise, Params.Aircraft.FLIGHT_TIME])
    rfl
    (by
      refine ⟨?_, ?_, ?_, ?_⟩ <;>
        norm_num [sampleAtTarget, sampleCruise, Params.EPSILON])

end Warships
